import Mathlib

/-!
Verification of the CopyFilesOverSSH task
(`Tasks/CopyFilesOverSSHV0/copyfilesoverssh.ts`).

Shallow embedding of the selection engine (`getFilesToCopy`), the remote
cleanup command builder (`getCleanTargetFolderCmd`) and the copy
orchestrator (`run`).  External collaborators are parameterised:

* `join` models Node's `path.join` (its internals never matter here: every
  statement below holds for an arbitrary join function);
* `mm` models the `minimatch` predicate `(pattern, path) ↦ matches?`;
  `minimatch.match(list, pattern, options)` filters `list` with that
  predicate, which is how it is embedded (`minimatchMatch`);
* filesystem enumeration (`tl.find` + `tl.stats`, directories removed) is
  passed in as the list `allFiles`;
* the SSH session (`SshHelper`) is modelled by boolean/functional oracles in
  `RunConfig` describing whether each remote operation succeeds.

String primitives are defined over the character list of a string so that
every definition evaluates by kernel reduction on concrete inputs.
-/

namespace CopyFilesOverSSH

/-- Drop the first `k` characters of a string (model of JS
`String.prototype.substring(k)`). -/
def charDrop (s : String) (k : Nat) : String :=
  String.mk (s.data.drop k)

/-- Take the first `k` characters of a string (model of JS
`String.prototype.substring(0, k)`). -/
def charTake (s : String) (k : Nat) : String :=
  String.mk (s.data.take k)

/-- Character-list prefix test. -/
def charListLeads : List Char → List Char → Bool
  | [], _ => true
  | _ :: _, [] => false
  | c :: cs, d :: ds => c == d && charListLeads cs ds

/-- Does `s` start with `t`? -/
def charStartsWith (s t : String) : Bool :=
  charListLeads t.data s.data

/-- Number of characters of a string (model of JS `String.prototype.length`). -/
def charLength (s : String) : Nat :=
  s.data.length

/-- Model of JS `String.prototype.trim`: remove leading and trailing
whitespace. -/
def charTrim (s : String) : String :=
  String.mk (((s.data.dropWhile Char.isWhitespace).reverse.dropWhile
    Char.isWhitespace).reverse)

/-- Result of classifying one content pattern: an include or an exclude glob
expression (source lines 17–38). -/
inductive Classified where
  | incl (globExpression : String)
  | excl (globExpression : String)
deriving DecidableEq, Repr

/-- The character loop of `getFilesToCopy` (lines 20–27): walk the pattern
from the start, toggling `negate` and incrementing `numberOfNegations` for
each `'!'`, stopping at the first other character. -/
def negationScanAux (negate : Bool) (numberOfNegations : Nat) : List Char → Bool × Nat
  | [] => (negate, numberOfNegations)
  | c :: cs =>
      if c = '!' then negationScanAux (!negate) (numberOfNegations + 1) cs
      else (negate, numberOfNegations)

/-- Classification of a single (already trimmed) pattern (lines 18–37):
when `negate` holds the glob expression keeps the leading `!`s verbatim and
joins the source folder with the rest; otherwise the whole pattern is
joined. -/
def classifyPattern (join : String → String → String)
    (sourceFolder pattern : String) : Classified :=
  let scan := negationScanAux false 0 pattern.data
  if scan.1 then
    Classified.excl (charTake pattern scan.2 ++ join sourceFolder (charDrop pattern scan.2))
  else
    Classified.incl (join sourceFolder pattern)

/-- The classification loop over `contents.map(x => x.trim())` (line 17),
accumulating `includeContents` and `excludeContents` in order. -/
def classifyContents (join : String → String → String)
    (sourceFolder : String) (contents : List String) : List String × List String :=
  contents.foldl
    (fun acc x =>
      match classifyPattern join sourceFolder (charTrim x) with
      | Classified.incl g => (acc.1 ++ [g], acc.2)
      | Classified.excl g => (acc.1, acc.2 ++ [g]))
    ([], [])

/-- Spec-side notion: the count of consecutive leading `'!'` characters of a
pattern. -/
def leadingBangCount (s : String) : Nat :=
  (s.data.takeWhile (fun c => c == '!')).length

/-- Model of `minimatch.match(files, pattern, options)`: it filters the given
list by the matcher predicate `mm pattern`, keeping order. -/
def minimatchMatch (mm : String → String → Bool)
    (files : List String) (pattern : String) : List String :=
  files.filter (fun f => mm pattern f)

/-- Inner loop of the include phase (lines 76–81): push every match not yet
recorded in `pathsSeen`, recording it.  State is `(pathsSeen, files)`. -/
def addMatches : List String × List String → List String → List String × List String
  | st, [] => st
  | (pathsSeen, files), m :: ms =>
      if pathsSeen.contains m then addMatches (pathsSeen, files) ms
      else addMatches (m :: pathsSeen, files ++ [m]) ms

/-- Include phase (lines 69–82): for each include pattern, match it against
the full file set and merge the matches into the seen/result state. -/
def includePhaseAux (mm : String → String → Bool) (allFiles : List String) :
    List String × List String → List String → List String × List String
  | st, [] => st
  | st, p :: ps =>
      includePhaseAux mm allFiles (addMatches st (minimatchMatch mm allFiles p)) ps

/-- The include-phase result list (initially empty seen-set and result). -/
def includePhase (mm : String → String → Bool)
    (allFiles : List String) (includeContents : List String) : List String :=
  (includePhaseAux mm allFiles ([], []) includeContents).2

/-- Exclude phase (lines 85–96): each exclude pattern re-filters the files
surviving the previous one. -/
def excludePhase (mm : String → String → Bool) (files : List String) :
    List String → List String
  | [] => files
  | p :: ps => excludePhase mm (minimatchMatch mm files p) ps

/-- `getFilesToCopy` (lines 10–99).  `allFiles` is the enumerated list of
non-directory entries under `sourceFolder` (lines 41–50, external I/O).
Line 53: when there are only exclude filters an include-all `"**"` filter is
pushed. -/
def getFilesToCopy (join : String → String → String) (mm : String → String → Bool)
    (sourceFolder : String) (contents : List String) (allFiles : List String) :
    List String :=
  let classified := classifyContents join sourceFolder contents
  let includeContents :=
    if classified.1.length = 0 ∧ 0 < classified.2.length then classified.1 ++ ["**"]
    else classified.1
  excludePhase mm (includePhase mm allFiles includeContents) classified.2

/-- Spec-side helper: the seen-set after recording a list of matches. -/
def seenAfter (seen : List String) : List String → List String
  | [] => seen
  | m :: ms => if seen.contains m then seenAfter seen ms else seenAfter (m :: seen) ms

/-- Spec-side helper: drop every element already in `seen` or seen earlier in
the list, keeping first occurrences. -/
def firstSeenAux (seen : List String) : List String → List String
  | [] => []
  | m :: ms =>
      if seen.contains m then firstSeenAux seen ms
      else m :: firstSeenAux (m :: seen) ms

/-- Spec-side notion: deduplicate a list keeping the first occurrence of each
element (the "first-seen order" of the spec). -/
def dedupFirstSeen (l : List String) : List String :=
  firstSeenAux [] l

/-- Helper for `basename`: the characters after the last `'/'`. -/
def basenameAux (current : List Char) : List Char → List Char
  | [] => current
  | c :: cs => if c == '/' then basenameAux [] cs else basenameAux (current ++ [c]) cs

/-- Model of Node `path.basename` on a POSIX host: the part after the last
`/`. -/
def basename (s : String) : String :=
  String.mk (basenameAux [] s.data)

/-- `.replace(/^\\/g, "")` (line 215): strip one leading backslash. -/
def stripLeadingBackslash (s : String) : String :=
  if charStartsWith s "\\" then charDrop s 1 else s

/-- `.replace(/^\//g, "")` (line 216): strip one leading forward slash. -/
def stripLeadingSlash (s : String) : String :=
  if charStartsWith s "/" then charDrop s 1 else s

/-- The remote relative path of a selected file (lines 210–217): basename
when flattening, otherwise the path with the source-folder prefix dropped,
then one leading backslash stripped, then one leading forward slash
stripped. -/
def relativePathFor (flattenFolders : Bool) (sourceFolder fileToCopy : String) : String :=
  if flattenFolders then basename fileToCopy
  else stripLeadingSlash (stripLeadingBackslash (charDrop fileToCopy (charLength sourceFolder)))

/-- Definition following the spec's words for the same quantity: the source
path with the source-root prefix stripped and ONE single leading path
separator (of either slash style) stripped. -/
def specRelativePath (flattenFolders : Bool) (sourceFolder fileToCopy : String) : String :=
  if flattenFolders then basename fileToCopy
  else
    let rest := charDrop fileToCopy (charLength sourceFolder)
    if charStartsWith rest "/" ∨ charStartsWith rest "\\" then charDrop rest 1 else rest

/-- Simplified model of `path.posix.join` on two segments (no dot-segment
normalisation; it is used identically by the code-side and spec-side
expressions, so only its application point matters). -/
def posixJoin (a b : String) : String :=
  if a = "" then b else if b = "" then a else a ++ "/" ++ b

/-- Target folder normalisation (lines 164–169): empty defaults to `./`, a
leading `~/` is rewritten to `./`. -/
def normalizeTargetFolder (t : String) : String :=
  if t = "" then "./"
  else if charStartsWith t "~/" then "./" ++ charDrop t 2
  else t

/-- `getCleanTargetFolderCmd` (lines 106–114), with the `isWindowsOnTarget`
input passed explicitly. -/
def getCleanTargetFolderCmd (isWindowsOnTarget : Bool) (targetFolder : String) : String :=
  if isWindowsOnTarget then
    "del /q \"" ++ targetFolder ++ "\\*\" && FOR /D %p IN (\"" ++ targetFolder
      ++ "\\*.*\") DO rmdir \"%p\" /s /q"
  else
    "bash -c \"rm -rf '" ++ targetFolder ++ "'/*\""

/-- JavaScript values relevant to the `if (filesToCopy)` guard (line 200). -/
inductive JsValue where
  | nullVal
  | undefinedVal
  | arrayVal (elements : List String)
deriving DecidableEq, Repr

/-- JavaScript truthiness: `null` and `undefined` are falsy, every array
(even an empty one) is truthy. -/
def jsTruthy : JsValue → Bool
  | JsValue.nullVal => false
  | JsValue.undefinedVal => false
  | JsValue.arrayVal _ => true

/-- Outcome reported by `tl.setResult`. -/
inductive TaskResult where
  | succeeded
  | failed
deriving DecidableEq, Repr

/-- Configuration and environment of one `run` (lines 116–253).  Inputs are
the task inputs; the `…Succeeds`/`…Throws` oracles model the behaviour of
the external SSH session and filesystem. -/
structure RunConfig where
  join : String → String → String
  mm : String → String → Bool
  sourceFolder : String
  contents : List String
  allFiles : List String
  targetFolderInput : String
  flattenFolders : Bool
  overwrite : Bool
  cleanTargetFolder : Bool
  failOnEmptySource : Bool
  isWindowsOnTarget : Bool
  sourceIsDirectory : Bool
  connectionSucceeds : Bool
  cleanupSucceeds : Bool
  existsCheckThrows : String → Bool
  remoteExists : String → Bool
  uploadThrows : String → Bool

/-- Observable trace of one `run`. -/
structure RunTrace where
  result : TaskResult
  loopIterations : Nat
  failureCount : Nat
  transfersAttempted : Nat
  uploaded : List (String × String)
  nothingToCopyThrown : Bool
  nothingToCopyWarned : Bool
  disconnectCount : Nat
deriving DecidableEq, Repr

/-- The remote target path computed for one file (lines 210–219):
`path.posix.join(targetFolder, relativePath)`. -/
def copyTargetPath (cfg : RunConfig) (fileToCopy : String) : String :=
  posixJoin (normalizeTargetFolder cfg.targetFolderInput)
    (relativePathFor cfg.flattenFolders cfg.sourceFolder fileToCopy)

/-- One iteration of the copy loop body (lines 207–233).  Returns
`(uploadAttempted, success)`: when overwrite is off, a throwing existence
check or an existing remote file fails the iteration before any upload;
otherwise the upload is attempted and may itself throw. -/
def copyOneFile (cfg : RunConfig) (fileToCopy : String) : Bool × Bool :=
  let targetPath := copyTargetPath cfg fileToCopy
  if !cfg.overwrite && cfg.existsCheckThrows targetPath then (false, false)
  else if !cfg.overwrite && cfg.remoteExists targetPath then (false, false)
  else if cfg.uploadThrows fileToCopy then (true, false)
  else (true, true)

/-- Statistics accumulated by the copy loop (lines 204–234). -/
structure LoopOut where
  iterations : Nat
  failures : Nat
  transfers : Nat
  uploaded : List (String × String)
deriving DecidableEq, Repr

/-- The copy loop (lines 206–234): every file is processed in order; a
failing file only increments the failure count and the loop continues. -/
def copyLoop (cfg : RunConfig) : List String → LoopOut
  | [] => ⟨0, 0, 0, []⟩
  | f :: fs =>
      let r := copyOneFile cfg f
      let rest := copyLoop cfg fs
      { iterations := rest.iterations + 1
        failures := (if r.2 then 0 else 1) + rest.failures
        transfers := (if r.1 then 1 else 0) + rest.transfers
        uploaded := (if r.2 then [(f, copyTargetPath cfg f)] else []) ++ rest.uploaded }

/-- The selection computed by `run` at line 197. -/
def selectionOf (cfg : RunConfig) : List String :=
  getFilesToCopy cfg.join cfg.mm cfg.sourceFolder cfg.contents cfg.allFiles

/-- A fatal error in a state before the copy loop: invalid source folder,
failed connection setup, or failed cleanup command. -/
def fatalBefore (cfg : RunConfig) : Bool :=
  !cfg.sourceIsDirectory || !cfg.connectionSucceeds
    || (cfg.cleanTargetFolder && !cfg.cleanupSucceeds)

/-- The orchestrator `run` (lines 116–253) as a trace function.

* A non-directory source folder throws (line 178) before `sshHelper` is
  assigned, so the `finally` block (lines 246–252) finds `sshHelper`
  undefined and never calls `closeConnection`.
* Every later failure happens with `sshHelper` assigned, so the `finally`
  block disconnects exactly once.
* Line 200 guards the copy branch with the JavaScript truthiness of the
  `filesToCopy` array. -/
def run (cfg : RunConfig) : RunTrace :=
  if !cfg.sourceIsDirectory then
    { result := TaskResult.failed, loopIterations := 0, failureCount := 0
      transfersAttempted := 0, uploaded := [], nothingToCopyThrown := false
      nothingToCopyWarned := false, disconnectCount := 0 }
  else if !cfg.connectionSucceeds then
    { result := TaskResult.failed, loopIterations := 0, failureCount := 0
      transfersAttempted := 0, uploaded := [], nothingToCopyThrown := false
      nothingToCopyWarned := false, disconnectCount := 1 }
  else if cfg.cleanTargetFolder && !cfg.cleanupSucceeds then
    { result := TaskResult.failed, loopIterations := 0, failureCount := 0
      transfersAttempted := 0, uploaded := [], nothingToCopyThrown := false
      nothingToCopyWarned := false, disconnectCount := 1 }
  else
    let filesToCopy := selectionOf cfg
    if jsTruthy (JsValue.arrayVal filesToCopy) then
      let out := copyLoop cfg filesToCopy
      { result := if out.failures ≠ 0 then TaskResult.failed else TaskResult.succeeded
        loopIterations := out.iterations, failureCount := out.failures
        transfersAttempted := out.transfers, uploaded := out.uploaded
        nothingToCopyThrown := false, nothingToCopyWarned := false
        disconnectCount := 1 }
    else if cfg.failOnEmptySource then
      { result := TaskResult.failed, loopIterations := 0, failureCount := 0
        transfersAttempted := 0, uploaded := [], nothingToCopyThrown := true
        nothingToCopyWarned := false, disconnectCount := 1 }
    else
      { result := TaskResult.succeeded, loopIterations := 0, failureCount := 0
        transfersAttempted := 0, uploaded := [], nothingToCopyThrown := false
        nothingToCopyWarned := true, disconnectCount := 1 }

/-- A baseline concrete configuration: healthy environment, no files, no
special flags.  Witness configurations below adjust single fields. -/
def baseConfig : RunConfig :=
  { join := fun a b => a ++ "/" ++ b
    mm := fun _ _ => true
    sourceFolder := "/s"
    contents := ["**"]
    allFiles := []
    targetFolderInput := "/d"
    flattenFolders := false
    overwrite := false
    cleanTargetFolder := false
    failOnEmptySource := false
    isWindowsOnTarget := false
    sourceIsDirectory := true
    connectionSucceeds := true
    cleanupSucceeds := true
    existsCheckThrows := fun _ => false
    remoteExists := fun _ => false
    uploadThrows := fun _ => false }

/-- Empty selection with the fail-on-empty-source flag set. -/
def emptySelectionFailFlagConfig : RunConfig :=
  { baseConfig with failOnEmptySource := true }

/-- Empty selection without the fail-on-empty-source flag. -/
def emptySelectionWarnConfig : RunConfig :=
  baseConfig

/-- Two files where the first one's upload throws. -/
def partialFailureConfig : RunConfig :=
  { baseConfig with
    allFiles := ["/s/a", "/s/b"]
    uploadThrows := fun f => f == "/s/a" }

/-- Cleanup requested and the remote cleanup command throws. -/
def cleanupFailureConfig : RunConfig :=
  { baseConfig with
    allFiles := ["/s/a"]
    cleanTargetFolder := true
    cleanupSucceeds := false }

/-- A source folder that is not a directory: `tl.stats(...).isDirectory()`
is false, so line 178 throws before `sshHelper` is assigned. -/
def invalidSourceConfig : RunConfig :=
  { baseConfig with sourceIsDirectory := false }

/-! ## Proofs -/

/-- The character loop computes: `negate` is the parity of the number of
leading `'!'` characters, `numberOfNegations` is that number. -/
theorem negationScanAux_eq (l : List Char) : ∀ (b : Bool) (k : Nat),
    negationScanAux b k l =
      (xor b (decide ((l.takeWhile (fun c => c == '!')).length % 2 = 1)),
        k + (l.takeWhile (fun c => c == '!')).length) := by
  induction l with
  | nil => intro b k; simp [negationScanAux]
  | cons c cs ih =>
      intro b k
      by_cases hc : c = '!'
      · subst hc
        have htw : (('!' :: cs).takeWhile (fun c => c == '!')) =
            '!' :: cs.takeWhile (fun c => c == '!') := by
          simp [List.takeWhile_cons]
        rw [negationScanAux, if_pos rfl, ih, htw]
        simp only [List.length_cons, Prod.mk.injEq]
        refine ⟨?_, by omega⟩
        rcases Nat.mod_two_eq_zero_or_one ((cs.takeWhile (fun c => c == '!')).length)
          with h | h <;> simp [h, Nat.add_mod]
      · have hb : (c == '!') = false := by
          exact beq_eq_false_iff_ne.mpr hc
        rw [negationScanAux, if_neg hc]
        simp [List.takeWhile_cons, hb]

/-- The leading `'!'` characters form a replicate of `'!'`. -/
theorem takeWhile_bangs_eq_replicate (l : List Char) :
    l.takeWhile (fun c => c == '!') =
      List.replicate ((l.takeWhile (fun c => c == '!')).length) '!' := by
  induction l with
  | nil => simp
  | cons c cs ih =>
      by_cases hc : c = '!'
      · subst hc
        simp only [List.takeWhile_cons, beq_self_eq_true, List.length_cons,
          List.replicate_succ, if_true]
        exact List.cons_eq_cons.mpr ⟨rfl, ih⟩
      · have hb : (c == '!') = false := beq_eq_false_iff_ne.mpr hc
        simp [List.takeWhile_cons, hb]

/-- Taking as many characters as the takeWhile segment returns the
segment. -/
theorem take_takeWhile_length (f : Char → Bool) (l : List Char) :
    l.take ((l.takeWhile f).length) = l.takeWhile f := by
  induction l with
  | nil => simp
  | cons c cs ih =>
      by_cases hc : f c
      · simp [List.takeWhile_cons, hc, ih]
      · simp [List.takeWhile_cons, hc]

/-- Claim C1: for every raw content pattern, after trimming, if the count of
consecutive leading `'!'` characters is odd the pattern is classified as
exclude with glob expression the leading `'!'` characters verbatim
concatenated with `join(sourceRoot, pattern minus the bangs)`; if the count
is zero or even it is classified as include with glob expression
`join(sourceRoot, whole pattern)`, any even number of leading `'!'`
characters staying embedded as literal characters. -/
theorem classifyPattern_negation_classification
    (join : String → String → String) (sourceFolder x : String) :
    classifyPattern join sourceFolder (charTrim x) =
      (if leadingBangCount (charTrim x) % 2 = 1 then
        Classified.excl
          (String.mk (List.replicate (leadingBangCount (charTrim x)) '!') ++
            join sourceFolder (charDrop (charTrim x) (leadingBangCount (charTrim x))))
      else Classified.incl (join sourceFolder (charTrim x))) := by
  have hscan := negationScanAux_eq (charTrim x).data false 0
  simp only [Bool.false_xor, Nat.zero_add] at hscan
  simp only [classifyPattern, hscan, leadingBangCount]
  by_cases h : (((charTrim x).data.takeWhile (fun c => c == '!')).length) % 2 = 1
  · rw [if_pos (show decide ((((charTrim x).data.takeWhile
        (fun c => c == '!')).length) % 2 = 1) = true by simp [h]), if_pos h]
    congr 2
    calc charTake (charTrim x) (((charTrim x).data.takeWhile (fun c => c == '!')).length)
        = String.mk ((charTrim x).data.takeWhile (fun c => c == '!')) := by
          unfold charTake; rw [take_takeWhile_length]
      _ = String.mk
            (List.replicate ((((charTrim x).data.takeWhile (fun c => c == '!'))).length) '!') := by
          rw [← takeWhile_bangs_eq_replicate]
  · simp [h]

/-- `addMatches` appends exactly the first-seen-filtered matches and updates
the seen-set to `seenAfter`. -/
theorem addMatches_eq (ms : List String) : ∀ (seen files : List String),
    addMatches (seen, files) ms = (seenAfter seen ms, files ++ firstSeenAux seen ms) := by
  induction ms with
  | nil => intro seen files; simp [addMatches, seenAfter, firstSeenAux]
  | cons m ms ih =>
      intro seen files
      by_cases h : m ∈ seen
      · simp [addMatches, seenAfter, firstSeenAux, h, ih]
      · simp [addMatches, seenAfter, firstSeenAux, h, ih]

/-- The seen-set after a concatenation of match lists. -/
theorem seenAfter_append (ms₁ : List String) : ∀ (seen ms₂ : List String),
    seenAfter seen (ms₁ ++ ms₂) = seenAfter (seenAfter seen ms₁) ms₂ := by
  induction ms₁ with
  | nil => intros; simp [seenAfter]
  | cons m ms ih =>
      intro seen ms₂
      by_cases h : m ∈ seen <;> simp [seenAfter, h, ih]

/-- First-seen filtering distributes over concatenation. -/
theorem firstSeenAux_append (ms₁ : List String) : ∀ (seen ms₂ : List String),
    firstSeenAux seen (ms₁ ++ ms₂) =
      firstSeenAux seen ms₁ ++ firstSeenAux (seenAfter seen ms₁) ms₂ := by
  induction ms₁ with
  | nil => intros; simp [firstSeenAux, seenAfter]
  | cons m ms ih =>
      intro seen ms₂
      by_cases h : m ∈ seen <;> simp [firstSeenAux, seenAfter, h, ih]

/-- The include phase state after processing a pattern list. -/
theorem includePhaseAux_eq (mm : String → String → Bool) (allFiles : List String)
    (ps : List String) : ∀ (seen files : List String),
    includePhaseAux mm allFiles (seen, files) ps =
      (seenAfter seen (List.flatten (ps.map (fun p => minimatchMatch mm allFiles p))),
        files ++ firstSeenAux seen
          (List.flatten (ps.map (fun p => minimatchMatch mm allFiles p)))) := by
  induction ps with
  | nil => intros; simp [includePhaseAux, seenAfter, firstSeenAux]
  | cons p ps ih =>
      intro seen files
      simp only [includePhaseAux, addMatches_eq, ih, List.map_cons, List.flatten_cons,
        seenAfter_append, firstSeenAux_append, List.append_assoc]

/-- The include phase equals first-seen deduplication of the concatenation of
every pattern's independent match list over the full file set. -/
theorem includePhase_eq (mm : String → String → Bool) (allFiles ps : List String) :
    includePhase mm allFiles ps =
      dedupFirstSeen (List.flatten (ps.map (fun p => minimatchMatch mm allFiles p))) := by
  simp [includePhase, includePhaseAux_eq, dedupFirstSeen]

/-- Claim C2: with no exclude patterns, the selection result is the
first-seen deduplicated union of each include pattern's matches, each
pattern matched independently against the full file set, in declared
order. -/
theorem getFilesToCopy_no_excludes (join : String → String → String)
    (mm : String → String → Bool) (sourceFolder : String)
    (contents allFiles : List String)
    (hec : (classifyContents join sourceFolder contents).2 = []) :
    getFilesToCopy join mm sourceFolder contents allFiles =
      dedupFirstSeen (List.flatten
        (((classifyContents join sourceFolder contents).1).map
          (fun p => minimatchMatch mm allFiles p))) := by
  simp only [getFilesToCopy]
  rw [hec]
  rw [if_neg (by simp)]
  simp only [excludePhase]
  exact includePhase_eq mm allFiles _

/-- Appending one more exclude pattern re-filters the previous survivors. -/
theorem excludePhase_append (mm : String → String → Bool) (es : List String) :
    ∀ (files : List String) (e : String),
    excludePhase mm files (es ++ [e]) = minimatchMatch mm (excludePhase mm files es) e := by
  induction es with
  | nil => intros; simp [excludePhase]
  | cons p ps ih => intros; simp [excludePhase, ih]

/-- Claim C3: each exclude pattern is applied to the files surviving the
previous exclude pattern (the include-phase result feeding the first), each
surviving set is a sublist (hence subset) of the previous one, and one more
exclude pattern never increases the result's size. -/
theorem excludePhase_narrowing (join : String → String → String)
    (mm : String → String → Bool) (sourceFolder : String)
    (contents allFiles files es : List String) (e : String) :
    excludePhase mm files (es ++ [e]) = minimatchMatch mm (excludePhase mm files es) e
    ∧ List.Sublist (excludePhase mm files (es ++ [e])) (excludePhase mm files es)
    ∧ (excludePhase mm files (es ++ [e])).length ≤ (excludePhase mm files es).length
    ∧ getFilesToCopy join mm sourceFolder contents allFiles =
        excludePhase mm
          (includePhase mm allFiles
            (if (classifyContents join sourceFolder contents).1.length = 0
                ∧ 0 < (classifyContents join sourceFolder contents).2.length
              then (classifyContents join sourceFolder contents).1 ++ ["**"]
              else (classifyContents join sourceFolder contents).1))
          ((classifyContents join sourceFolder contents).2) := by
  refine ⟨excludePhase_append mm es files e, ?_, ?_, rfl⟩
  · rw [excludePhase_append]
    simp only [minimatchMatch]
    exact List.filter_sublist _
  · rw [excludePhase_append]
    simp only [minimatchMatch]
    exact (List.filter_sublist _).length_le

/-- First-seen filtering is the identity on duplicate-free lists disjoint
from the seen-set. -/
theorem firstSeenAux_of_nodup (l : List String) : ∀ (seen : List String),
    l.Nodup → (∀ x ∈ l, x ∉ seen) → firstSeenAux seen l = l := by
  induction l with
  | nil => intros; simp [firstSeenAux]
  | cons m ms ih =>
      intro seen hnd hsee
      have hm : m ∉ seen := hsee m (by simp)
      have hrest : firstSeenAux (m :: seen) ms = ms := by
        refine ih (m :: seen) hnd.of_cons ?_
        intro x hx
        have hxm : x ≠ m := by
          intro hxm
          exact (List.nodup_cons.mp hnd).1 (hxm ▸ hx)
        simp only [List.mem_cons, not_or]
        exact ⟨hxm, hsee x (by simp [hx])⟩
      simp [firstSeenAux, hm, hrest]

/-- Claim C4: with zero include patterns and at least one exclude pattern,
the implicit `"**"` include is injected, so (whenever the matcher matches
every file on `"**"` and the enumerated files are duplicate-free) the
selection equals the full non-directory file set narrowed sequentially by
the exclude patterns. -/
theorem getFilesToCopy_excludes_only (join : String → String → String)
    (mm : String → String → Bool) (sourceFolder : String)
    (contents allFiles : List String)
    (hic : (classifyContents join sourceFolder contents).1 = [])
    (hec : (classifyContents join sourceFolder contents).2 ≠ [])
    (hstar : ∀ f ∈ allFiles, mm "**" f = true)
    (hnd : allFiles.Nodup) :
    getFilesToCopy join mm sourceFolder contents allFiles =
      excludePhase mm allFiles ((classifyContents join sourceFolder contents).2) := by
  simp only [getFilesToCopy]
  rw [hic]
  rw [if_pos ⟨by simp, List.length_pos.mpr hec⟩]
  have hfil : minimatchMatch mm allFiles "**" = allFiles := by
    simp only [minimatchMatch]
    exact List.filter_eq_self.mpr hstar
  have h1 : includePhase mm allFiles ([] ++ ["**"]) = allFiles := by
    rw [includePhase_eq]
    simp only [List.nil_append, List.map_cons, List.map_nil, List.flatten_cons,
      List.flatten_nil, List.append_nil, hfil]
    exact firstSeenAux_of_nodup allFiles [] hnd (fun x _ => by simp)
  rw [h1]

/-- Witness for C2 at a concrete input (a duplicate match across two include
patterns is kept once, in first-seen order). -/
theorem getFilesToCopy_no_excludes_witness :
    (classifyContents (fun a b => a ++ "/" ++ b) "/s" ["*.txt", "b"]).2 = []
    ∧ getFilesToCopy (fun a b => a ++ "/" ++ b) (fun _ _ => true) "/s"
        ["*.txt", "b"] ["x", "y"]
        = dedupFirstSeen (List.flatten
            (((classifyContents (fun a b => a ++ "/" ++ b) "/s" ["*.txt", "b"]).1).map
              (fun p => minimatchMatch (fun _ _ => true) ["x", "y"] p))) :=
  ⟨by decide, getFilesToCopy_no_excludes _ _ _ _ _ (by decide)⟩

/-- Witness for C4 at a concrete input. -/
theorem getFilesToCopy_excludes_only_witness :
    (classifyContents (fun a b => a ++ "/" ++ b) "/s" [" !a "]).1 = []
    ∧ (classifyContents (fun a b => a ++ "/" ++ b) "/s" [" !a "]).2 ≠ []
    ∧ (∀ f ∈ (["x", "y"] : List String), (fun (p : String) (_ : String) => p == "**") "**" f = true)
    ∧ (["x", "y"] : List String).Nodup
    ∧ getFilesToCopy (fun a b => a ++ "/" ++ b) (fun p _ => p == "**") "/s"
        [" !a "] ["x", "y"]
        = excludePhase (fun p _ => p == "**") ["x", "y"]
            ((classifyContents (fun a b => a ++ "/" ++ b) "/s" [" !a "]).2) :=
  ⟨by decide, by decide, by decide, by decide,
    getFilesToCopy_excludes_only _ _ _ _ _ (by decide) (by decide) (by decide) (by decide)⟩

/-- Claim C5 (code bug): with an empty selection and the fail-on-empty-source
flag set, the run still succeeds with no warning recorded: the guard
`if (filesToCopy)` (line 200) tests the truthiness of an array, which is
true even for an empty array, so the `NothingToCopy` throw (line 240) and
warning (line 242) are unreachable. -/
theorem run_ignores_failOnEmptySource :
    selectionOf emptySelectionFailFlagConfig = []
    ∧ emptySelectionFailFlagConfig.failOnEmptySource = true
    ∧ (run emptySelectionFailFlagConfig).result = TaskResult.succeeded
    ∧ (run emptySelectionFailFlagConfig).nothingToCopyThrown = false
    ∧ (run emptySelectionFailFlagConfig).nothingToCopyWarned = false
    ∧ (run emptySelectionFailFlagConfig).loopIterations = 0 := by
  refine ⟨by decide, rfl, by decide, by decide, by decide, by decide⟩

/-- Claim C6: `getFilesToCopy` always yields an array, whose truthiness test
always succeeds; the empty-selection branches are unreachable on every run;
and an empty selection in a healthy environment runs the copy loop zero
times and the run completes with no warning and no failure. -/
theorem selection_always_truthy :
    (∀ (join : String → String → String) (mm : String → String → Bool)
        (sourceFolder : String) (contents allFiles : List String),
      jsTruthy (JsValue.arrayVal
        (getFilesToCopy join mm sourceFolder contents allFiles)) = true)
    ∧ (∀ cfg : RunConfig, (run cfg).nothingToCopyThrown = false
        ∧ (run cfg).nothingToCopyWarned = false)
    ∧ (∀ cfg : RunConfig, fatalBefore cfg = false → selectionOf cfg = [] →
        (run cfg).loopIterations = 0 ∧ (run cfg).failureCount = 0
        ∧ (run cfg).result = TaskResult.succeeded) := by
  refine ⟨fun _ _ _ _ _ => rfl, ?_, ?_⟩
  · intro cfg
    by_cases h1 : cfg.sourceIsDirectory = true <;>
      by_cases h2 : cfg.connectionSucceeds = true <;>
        by_cases h3 : cfg.cleanTargetFolder = true <;>
          by_cases h4 : cfg.cleanupSucceeds = true <;>
            simp [run, h1, h2, h3, h4, jsTruthy]
  · intro cfg hfb hsel
    by_cases h1 : cfg.sourceIsDirectory = true <;>
      by_cases h2 : cfg.connectionSucceeds = true <;>
        by_cases h3 : cfg.cleanTargetFolder = true <;>
          by_cases h4 : cfg.cleanupSucceeds = true <;>
            simp_all [run, fatalBefore, jsTruthy, copyLoop]

/-- Witness for C6's conditional part at a concrete healthy empty-selection
configuration. -/
theorem selection_always_truthy_witness :
    (run emptySelectionWarnConfig).loopIterations = 0
    ∧ (run emptySelectionWarnConfig).failureCount = 0
    ∧ (run emptySelectionWarnConfig).result = TaskResult.succeeded :=
  selection_always_truthy.2.2 emptySelectionWarnConfig (by decide) (by decide)

/-- The copy loop processes every file: one iteration per selected file,
regardless of failures. -/
theorem copyLoop_iterations (cfg : RunConfig) (fs : List String) :
    (copyLoop cfg fs).iterations = fs.length := by
  induction fs with
  | nil => rfl
  | cons f fs ih => simp [copyLoop, ih]

/-- The failure counter equals the number of failing files. -/
theorem copyLoop_failures (cfg : RunConfig) (fs : List String) :
    (copyLoop cfg fs).failures =
      (fs.filter (fun f => !(copyOneFile cfg f).2)).length := by
  induction fs with
  | nil => rfl
  | cons f fs ih =>
      cases h : (copyOneFile cfg f).2 <;>
        simp [copyLoop, List.filter_cons, h, ih, Nat.add_comm]

/-- The successful uploads are exactly the succeeding files, in selection
order, each paired with its computed target path. -/
theorem copyLoop_uploaded (cfg : RunConfig) (fs : List String) :
    (copyLoop cfg fs).uploaded =
      (fs.filter (fun f => (copyOneFile cfg f).2)).map
        (fun f => (f, copyTargetPath cfg f)) := by
  induction fs with
  | nil => rfl
  | cons f fs ih =>
      cases h : (copyOneFile cfg f).2 <;>
        simp [copyLoop, List.filter_cons, h, ih]

/-- Claim C7: files are copied sequentially in selection order; a per-file
error is caught and counted and the loop continues (every selected file is
iterated, the failure count is the number of failing files, the successful
uploads keep selection order); the run is reported failed iff the per-file
failure count is nonzero or a fatal error occurred in an earlier state. -/
theorem run_partial_failure_aggregation (cfg : RunConfig) :
    ((run cfg).result = TaskResult.failed ↔
      (run cfg).failureCount ≠ 0 ∨ fatalBefore cfg = true)
    ∧ (fatalBefore cfg = false →
        (run cfg).loopIterations = (selectionOf cfg).length
        ∧ (run cfg).failureCount =
            ((selectionOf cfg).filter (fun f => !(copyOneFile cfg f).2)).length
        ∧ (run cfg).uploaded =
            ((selectionOf cfg).filter (fun f => (copyOneFile cfg f).2)).map
              (fun f => (f, copyTargetPath cfg f))) := by
  by_cases h1 : cfg.sourceIsDirectory = true <;>
    by_cases h2 : cfg.connectionSucceeds = true <;>
      by_cases h3 : cfg.cleanTargetFolder = true <;>
        by_cases h4 : cfg.cleanupSucceeds = true <;>
          simp [run, fatalBefore, h1, h2, h3, h4, jsTruthy, copyLoop_iterations,
            copyLoop_failures, copyLoop_uploaded]

/-- Witness for C7 at a concrete configuration with one failing and one
succeeding file. -/
theorem run_partial_failure_aggregation_witness :
    ((run partialFailureConfig).result = TaskResult.failed ↔
      (run partialFailureConfig).failureCount ≠ 0
        ∨ fatalBefore partialFailureConfig = true)
    ∧ ((run partialFailureConfig).loopIterations
          = (selectionOf partialFailureConfig).length
      ∧ (run partialFailureConfig).failureCount =
          ((selectionOf partialFailureConfig).filter
            (fun f => !(copyOneFile partialFailureConfig f).2)).length
      ∧ (run partialFailureConfig).uploaded =
          ((selectionOf partialFailureConfig).filter
            (fun f => (copyOneFile partialFailureConfig f).2)).map
            (fun f => (f, copyTargetPath partialFailureConfig f))) :=
  ⟨(run_partial_failure_aggregation partialFailureConfig).1,
    (run_partial_failure_aggregation partialFailureConfig).2 (by decide)⟩

/-- Claim C9: the cleanup command builder returns, for a non-Windows remote,
the single bash invocation that recursively force-removes the contents of
the target folder (not the folder itself), and, for a Windows remote, the
single command deleting the files directly under the target folder and then
recursively removing the remaining subfolders; and when cleanup is requested
and the command throws, the run fails fatally with no file transfers
attempted. -/
theorem cleanTargetFolderCmd_forms (targetFolder : String) (cfg : RunConfig) :
    getCleanTargetFolderCmd false targetFolder
        = "bash -c \"rm -rf '" ++ targetFolder ++ "'/*\""
    ∧ getCleanTargetFolderCmd true targetFolder
        = "del /q \"" ++ targetFolder ++ "\\*\" && FOR /D %p IN (\"" ++ targetFolder
            ++ "\\*.*\") DO rmdir \"%p\" /s /q"
    ∧ (cfg.sourceIsDirectory = true → cfg.connectionSucceeds = true →
        cfg.cleanTargetFolder = true → cfg.cleanupSucceeds = false →
        (run cfg).result = TaskResult.failed
        ∧ (run cfg).loopIterations = 0
        ∧ (run cfg).transfersAttempted = 0
        ∧ (run cfg).uploaded = []) := by
  refine ⟨rfl, rfl, ?_⟩
  intro h1 h2 h3 h4
  simp [run, h1, h2, h3, h4]

/-- Witness for C9's fatal-cleanup part at a concrete configuration. -/
theorem cleanTargetFolderCmd_forms_witness :
    (run cleanupFailureConfig).result = TaskResult.failed
    ∧ (run cleanupFailureConfig).loopIterations = 0
    ∧ (run cleanupFailureConfig).transfersAttempted = 0
    ∧ (run cleanupFailureConfig).uploaded = [] :=
  (cleanTargetFolderCmd_forms "/d" cleanupFailureConfig).2.2 rfl rfl rfl rfl

/-- Counterexample to claim C10 as stated: on a run whose source folder is
not a directory, the throw at line 178 happens before `sshHelper` is
assigned, the `finally` block's `if (sshHelper)` guard is false, and
disconnect is invoked zero times, not exactly once. -/
theorem run_disconnect_counterexample :
    (run invalidSourceConfig).disconnectCount ≠ 1 := by decide

/-- Claim C10 amended: the teardown runs on every path and never disconnects
more than once; disconnect is invoked exactly once on every run that passes
the source-folder check (i.e. whenever the session helper is created),
regardless of any later fatal error, and zero times when the run fails
before the session exists. -/
theorem run_disconnect_exactly_once_after_creation (cfg : RunConfig) :
    (run cfg).disconnectCount = (if cfg.sourceIsDirectory then 1 else 0)
    ∧ (run cfg).disconnectCount ≤ 1 := by
  by_cases h1 : cfg.sourceIsDirectory = true <;>
    by_cases h2 : cfg.connectionSucceeds = true <;>
      by_cases h3 : cfg.cleanTargetFolder = true <;>
        by_cases h4 : cfg.cleanupSucceeds = true <;>
          simp [run, h1, h2, h3, h4, jsTruthy]

/-- Counterexample to claim C8 as stated: for the file "/s\/a.txt" under
source root "/s", the remainder after stripping the root is "\/a.txt"; the
code strips the leading backslash AND then the leading forward slash,
producing "a.txt", while the claim's single-separator stripping produces
"/a.txt". -/
theorem relativePath_counterexample :
    relativePathFor false "/s" "/s\\/a.txt"
      ≠ specRelativePath false "/s" "/s\\/a.txt" := by decide

/-- Claim C8 amended: in flatten mode the remote relative path is the file's
basename; otherwise it is the source path with the source-root prefix
dropped, then ONE leading backslash stripped, THEN one leading forward slash
stripped (so a remainder starting with a backslash followed by a slash loses
both); whenever the remainder does not start with that backslash-slash
sequence this agrees with the claim's single-separator reading; and the
final remote target path is the POSIX-style join of the (normalised) target
root with the relative path. -/
theorem relativePath_resolution (flattenFolders : Bool)
    (sourceFolder fileToCopy : String) (cfg : RunConfig) (f : String) :
    relativePathFor true sourceFolder fileToCopy = basename fileToCopy
    ∧ relativePathFor false sourceFolder fileToCopy
        = stripLeadingSlash (stripLeadingBackslash
            (charDrop fileToCopy (charLength sourceFolder)))
    ∧ (¬(charStartsWith (charDrop fileToCopy (charLength sourceFolder)) "\\" = true
          ∧ charStartsWith
              (charDrop (charDrop fileToCopy (charLength sourceFolder)) 1) "/" = true) →
        relativePathFor flattenFolders sourceFolder fileToCopy
          = specRelativePath flattenFolders sourceFolder fileToCopy)
    ∧ copyTargetPath cfg f
        = posixJoin (normalizeTargetFolder cfg.targetFolderInput)
            (relativePathFor cfg.flattenFolders cfg.sourceFolder f) := by
  refine ⟨rfl, rfl, ?_, rfl⟩
  intro hno
  cases flattenFolders
  · by_cases hb : charStartsWith (charDrop fileToCopy (charLength sourceFolder)) "\\" = true
    · have hs : ¬ charStartsWith
          (charDrop (charDrop fileToCopy (charLength sourceFolder)) 1) "/" = true :=
        fun hs => hno ⟨hb, hs⟩
      simp [relativePathFor, specRelativePath, stripLeadingBackslash,
        stripLeadingSlash, hb, hs]
    · by_cases hsl : charStartsWith (charDrop fileToCopy (charLength sourceFolder)) "/" = true
      · simp [relativePathFor, specRelativePath, stripLeadingBackslash,
          stripLeadingSlash, hb, hsl]
      · simp [relativePathFor, specRelativePath, stripLeadingBackslash,
          stripLeadingSlash, hb, hsl]
  · simp [relativePathFor, specRelativePath]

/-- Witness for C8's agreement part at a concrete input outside the
backslash-slash corner. -/
theorem relativePath_resolution_witness :
    relativePathFor false "/s" "/s/b.txt" = specRelativePath false "/s" "/s/b.txt" :=
  (relativePath_resolution false "/s" "/s/b.txt" baseConfig "x").2.2.1 (by decide)

end CopyFilesOverSSH
